import Mathlib

/-!
Shallow embedding of the `machine` crate (`src/lib.rs`): a minimal generic
finite-state machine. The Rust `Machine<StateType, Event>` struct holds one
`state` field (plus a `PhantomData<Event>` marker, which stores nothing);
`dispatch` delegates to the state's `apply` and overwrites the stored state
only on success. Rust `Result<T, E>` is embedded as `Except E T`; the `&mut
self` mutation in `dispatch` is embedded as explicit state passing (the method
returns the `Result` paired with the post-call machine).
-/

/-- The error enum `MachineError<State, Event>` from `src/lib.rs`: a single
variant `InvalidEvent(State, Event)` carrying the rejecting state and the
rejected event. -/
inductive MachineError (S E : Type) : Type where
  | InvalidEvent : S → E → MachineError S E
deriving DecidableEq, Repr

/-- The trait `State<Event, ErrorType = MachineError<Self, Event>>`. The crate
only ever instantiates the defaulted error-type parameter, so the embedding
fixes `ErrorType` to `MachineError S E`. `apply` is the caller-supplied
transition function `fn apply(&self, event: Event) -> Result<Self, ErrorType>`. -/
class State (S E : Type) where
  apply : S → E → Except (MachineError S E) S

/-- The struct `Machine<StateType, Event>`: one public field `state`. The
`_event: PhantomData<Event>` field stores nothing; in the embedding `E` is
simply an unused type parameter. -/
structure Machine (S E : Type) : Type where
  state : S
deriving DecidableEq, Repr

/-- `Machine::new(initial_state)`: stores the given state unchanged. -/
def Machine.new {S E : Type} (initial_state : S) : Machine S E :=
  { state := initial_state }

/-- `Machine::dispatch(&mut self, event)`:
`self.state = self.state.apply(event).map_err(|e| e.into())?; Ok(())`.
The `map_err(|e| e.into())` is the identity conversion `MachineError ->
MachineError`. On `Ok(s)` the stored state is overwritten with `s` and the
call returns `Ok(())`; on `Err(err)` the `?` operator returns `err` at once,
leaving the machine unchanged. -/
def Machine.dispatch {S E : Type} [State S E] (m : Machine S E) (e : E) :
    Except (MachineError S E) Unit × Machine S E :=
  match State.apply m.state e with
  | Except.ok s => (Except.ok (), { state := s })
  | Except.error err => (Except.error err, m)

/-- Repeated dispatch of a list of events, collecting each call's result:
the final machine together with the sequence of success/error results. -/
def Machine.run {S E : Type} [State S E] :
    Machine S E → List E → Machine S E × List (Except (MachineError S E) Unit)
  | m, [] => (m, [])
  | m, e :: es =>
    let step := m.dispatch e
    let rest := step.2.run es
    (rest.1, step.1 :: rest.2)

/-- `fn description(&self) -> &str { todo!() }` from
`impl Error for MachineError`. The `todo!()` macro unconditionally panics, so
the call never returns a string; the panic is embedded as `none`. -/
def MachineError.description {S E : Type} (_err : MachineError S E) :
    Option String :=
  none

/-- The `Display` impl for `MachineError`, parameterized by the `Display`
renderings of the state and event types:
`write!(f, "Invalid Event, \x7be\x7d for State \x7bs\x7d")`. -/
def MachineError.displayFmt {S E : Type} (ds : S → String) (de : E → String) :
    MachineError S E → String
  | MachineError.InvalidEvent s e =>
      "Invalid Event, " ++ de e ++ " for State " ++ ds s

/-- `TurnstileState` from the crate's doc example. -/
inductive TurnstileState : Type where
  | Locked
  | Unlocked
deriving DecidableEq, Repr

/-- `TurnstileEvent` from the crate's doc example. -/
inductive TurnstileEvent : Type where
  | PaymentReceived
  | PersonEntering
deriving DecidableEq, Repr

/-- `impl State<TurnstileEvent> for TurnstileState` from the crate's doc
example: `Locked` accepts only `PaymentReceived` (to `Unlocked`), `Unlocked`
accepts only `PersonEntering` (to `Locked`); every other pair rejects with
`InvalidEvent(*self, event)`. -/
instance TurnstileState.instState : State TurnstileState TurnstileEvent where
  apply s e :=
    match s with
    | TurnstileState.Locked =>
      match e with
      | TurnstileEvent.PaymentReceived => Except.ok TurnstileState.Unlocked
      | _ => Except.error (MachineError.InvalidEvent s e)
    | TurnstileState.Unlocked =>
      match e with
      | TurnstileEvent.PersonEntering => Except.ok TurnstileState.Locked
      | _ => Except.error (MachineError.InvalidEvent s e)

/-- The turnstile machine started in `Locked`, as in the doc example. -/
def turnstileInit : Machine TurnstileState TurnstileEvent :=
  Machine.new TurnstileState.Locked

/-- C1: if `apply(s, e)` rejects with `err`, then `dispatch(e)` on a machine
in state `s` returns `err` unchanged and the whole machine — in particular its
`state` field — is exactly what it was before the call. -/
theorem dispatch_no_mutation_on_error {S E : Type} [State S E]
    (m : Machine S E) (e : E) (err : MachineError S E)
    (h : State.apply m.state e = Except.error err) :
    m.dispatch e = (Except.error err, m) := by
  simp [Machine.dispatch, h]

/-- Witness for C1 at the turnstile: `PersonEntering` from `Locked` is
rejected as `InvalidEvent(Locked, PersonEntering)` and leaves the machine
untouched. -/
theorem dispatch_no_mutation_on_error_witness :
    turnstileInit.dispatch TurnstileEvent.PersonEntering
      = (Except.error (MachineError.InvalidEvent TurnstileState.Locked
          TurnstileEvent.PersonEntering), turnstileInit) :=
  dispatch_no_mutation_on_error turnstileInit TurnstileEvent.PersonEntering
    (MachineError.InvalidEvent TurnstileState.Locked
      TurnstileEvent.PersonEntering) rfl

/-- C2: if `apply(s, e)` succeeds with `s'`, then `dispatch(e)` on a machine
in state `s` stores `s'` and returns success carrying only the unit value. -/
theorem dispatch_mutation_on_success {S E : Type} [State S E]
    (m : Machine S E) (e : E) (s' : S)
    (h : State.apply m.state e = Except.ok s') :
    m.dispatch e = (Except.ok (), { state := s' }) := by
  simp [Machine.dispatch, h]

/-- Witness for C2 at the turnstile: `PaymentReceived` from `Locked` succeeds
and the stored state becomes `Unlocked`. -/
theorem dispatch_mutation_on_success_witness :
    turnstileInit.dispatch TurnstileEvent.PaymentReceived
      = (Except.ok (), { state := TurnstileState.Unlocked }) :=
  dispatch_mutation_on_success turnstileInit TurnstileEvent.PaymentReceived
    TurnstileState.Unlocked rfl

/-- C3: after any `dispatch` call the machine's state is either the prior
state (and the call returned an error) or exactly the value the transition
function returned (and the call succeeded) — never anything else. -/
theorem dispatch_state_invariant {S E : Type} [State S E]
    (m : Machine S E) (e : E) :
    (∃ err, m.dispatch e = (Except.error err, m)) ∨
    (∃ s', State.apply m.state e = Except.ok s' ∧
      m.dispatch e = (Except.ok (), { state := s' })) := by
  cases h : State.apply m.state e with
  | ok s' => exact Or.inr ⟨s', rfl, by simp [Machine.dispatch, h]⟩
  | error err => exact Or.inl ⟨err, by simp [Machine.dispatch, h]⟩

/-- C4: `Machine::new(s)` stores exactly `s`; construction is a total
function that neither validates nor alters the value. -/
theorem new_stores_initial_state {S E : Type} (s : S) :
    (Machine.new s : Machine S E).state = s :=
  rfl

/-- C5: dispatching the same event sequence from machines with equal states
yields equal final states and identical sequences of success/error results. -/
theorem run_deterministic {S E : Type} [State S E]
    (m₁ m₂ : Machine S E) (es : List E) (h : m₁.state = m₂.state) :
    (m₁.run es).1.state = (m₂.run es).1.state ∧
      (m₁.run es).2 = (m₂.run es).2 := by
  cases m₁
  cases m₂
  cases h
  exact ⟨rfl, rfl⟩

/-- Witness for C5: two turnstile machines built from the same `Locked` state
agree on a three-event run. -/
theorem run_deterministic_witness :
    (turnstileInit.run [TurnstileEvent.PersonEntering,
        TurnstileEvent.PaymentReceived, TurnstileEvent.PersonEntering]).1.state
      = ((Machine.new TurnstileState.Locked :
          Machine TurnstileState TurnstileEvent).run [TurnstileEvent.PersonEntering,
        TurnstileEvent.PaymentReceived, TurnstileEvent.PersonEntering]).1.state ∧
    (turnstileInit.run [TurnstileEvent.PersonEntering,
        TurnstileEvent.PaymentReceived, TurnstileEvent.PersonEntering]).2
      = ((Machine.new TurnstileState.Locked :
          Machine TurnstileState TurnstileEvent).run [TurnstileEvent.PersonEntering,
        TurnstileEvent.PaymentReceived, TurnstileEvent.PersonEntering]).2 :=
  run_deterministic turnstileInit (Machine.new TurnstileState.Locked)
    [TurnstileEvent.PersonEntering, TurnstileEvent.PaymentReceived,
      TurnstileEvent.PersonEntering] rfl

/-- C6: a rejected dispatch does not corrupt or lock the machine — if
`apply(s, e₁)` rejects and `apply(s, e₂)` succeeds with `s'`, then after
dispatching `e₁` (an error) a subsequent dispatch of `e₂` succeeds and stores
`s'`. -/
theorem dispatch_recoverable_after_error {S E : Type} [State S E]
    (m : Machine S E) (e₁ e₂ : E) (err : MachineError S E) (s' : S)
    (h₁ : State.apply m.state e₁ = Except.error err)
    (h₂ : State.apply m.state e₂ = Except.ok s') :
    ((m.dispatch e₁).2.dispatch e₂).1 = Except.ok () ∧
      ((m.dispatch e₁).2.dispatch e₂).2.state = s' := by
  have hfst : (m.dispatch e₁).2 = m := by simp [Machine.dispatch, h₁]
  rw [hfst]
  simp [Machine.dispatch, h₂]

/-- Witness for C6 at the turnstile: from `Locked`, `PersonEntering` is
rejected and a following `PaymentReceived` succeeds, unlocking the machine. -/
theorem dispatch_recoverable_after_error_witness :
    ((turnstileInit.dispatch TurnstileEvent.PersonEntering).2.dispatch
        TurnstileEvent.PaymentReceived).1 = Except.ok () ∧
      ((turnstileInit.dispatch TurnstileEvent.PersonEntering).2.dispatch
        TurnstileEvent.PaymentReceived).2.state = TurnstileState.Unlocked :=
  dispatch_recoverable_after_error turnstileInit TurnstileEvent.PersonEntering
    TurnstileEvent.PaymentReceived
    (MachineError.InvalidEvent TurnstileState.Locked
      TurnstileEvent.PersonEntering)
    TurnstileState.Unlocked rfl rfl

/-- C7: any error `dispatch` returns is an `InvalidEvent` value — the enum has
no other constructor — tagged with a state and an event, and it is exactly the
rejection the transition function produced, surfaced unchanged. -/
theorem dispatch_error_only_invalid_event {S E : Type} [State S E]
    (m : Machine S E) (e : E) (err : MachineError S E)
    (h : (m.dispatch e).1 = Except.error err) :
    (∃ s ev, err = MachineError.InvalidEvent s ev) ∧
      State.apply m.state e = Except.error err := by
  cases happ : State.apply m.state e with
  | ok s' =>
    rw [Machine.dispatch, happ] at h
    exact absurd h (by simp)
  | error err' =>
    rw [Machine.dispatch, happ] at h
    simp at h
    cases h
    cases err with
    | InvalidEvent s ev => exact ⟨⟨s, ev, rfl⟩, rfl⟩

/-- Witness for C7 at the turnstile: the error returned for `PersonEntering`
from `Locked` is the `InvalidEvent` rejection produced by `apply`. -/
theorem dispatch_error_only_invalid_event_witness :
    (∃ s ev, MachineError.InvalidEvent TurnstileState.Locked
        TurnstileEvent.PersonEntering = MachineError.InvalidEvent s ev) ∧
      State.apply turnstileInit.state TurnstileEvent.PersonEntering
        = Except.error (MachineError.InvalidEvent TurnstileState.Locked
            TurnstileEvent.PersonEntering) :=
  dispatch_error_only_invalid_event turnstileInit TurnstileEvent.PersonEntering
    (MachineError.InvalidEvent TurnstileState.Locked
      TurnstileEvent.PersonEntering) rfl

/-- First doc-example step: dispatch `PersonEntering` from `Locked`. -/
def turnScn1 : Except (MachineError TurnstileState TurnstileEvent) Unit ×
    Machine TurnstileState TurnstileEvent :=
  turnstileInit.dispatch TurnstileEvent.PersonEntering

/-- Second doc-example step: then dispatch `PaymentReceived`. -/
def turnScn2 : Except (MachineError TurnstileState TurnstileEvent) Unit ×
    Machine TurnstileState TurnstileEvent :=
  turnScn1.2.dispatch TurnstileEvent.PaymentReceived

/-- Third doc-example step: then dispatch `PersonEntering`. -/
def turnScn3 : Except (MachineError TurnstileState TurnstileEvent) Unit ×
    Machine TurnstileState TurnstileEvent :=
  turnScn2.2.dispatch TurnstileEvent.PersonEntering

/-- Fourth doc-example step: then dispatch `PaymentReceived`. -/
def turnScn4 : Except (MachineError TurnstileState TurnstileEvent) Unit ×
    Machine TurnstileState TurnstileEvent :=
  turnScn3.2.dispatch TurnstileEvent.PaymentReceived

/-- Fifth doc-example step: then dispatch `PaymentReceived` again. -/
def turnScn5 : Except (MachineError TurnstileState TurnstileEvent) Unit ×
    Machine TurnstileState TurnstileEvent :=
  turnScn4.2.dispatch TurnstileEvent.PaymentReceived

/-- C8: the turnstile doc-example scenario, starting from `Locked`:
`PersonEntering` errors with `InvalidEvent(Locked, PersonEntering)` and the
state remains `Locked`; `PaymentReceived` succeeds to `Unlocked`;
`PersonEntering` succeeds to `Locked`; `PaymentReceived` succeeds to
`Unlocked`; a second `PaymentReceived` errors with
`InvalidEvent(Unlocked, PaymentReceived)` and the state remains `Unlocked`. -/
theorem turnstile_doc_scenario :
    turnScn1.1 = Except.error (MachineError.InvalidEvent TurnstileState.Locked
        TurnstileEvent.PersonEntering) ∧
    turnScn1.2.state = TurnstileState.Locked ∧
    turnScn2.1 = Except.ok () ∧
    turnScn2.2.state = TurnstileState.Unlocked ∧
    turnScn3.1 = Except.ok () ∧
    turnScn3.2.state = TurnstileState.Locked ∧
    turnScn4.1 = Except.ok () ∧
    turnScn4.2.state = TurnstileState.Unlocked ∧
    turnScn5.1 = Except.error (MachineError.InvalidEvent TurnstileState.Unlocked
        TurnstileEvent.PaymentReceived) ∧
    turnScn5.2.state = TurnstileState.Unlocked :=
  ⟨rfl, rfl, rfl, rfl, rfl, rfl, rfl, rfl, rfl, rfl⟩

/-- C9 fails on the code: `impl Error for MachineError` defines
`fn description(&self) -> &str { todo!() }`, and `todo!()` panics — a
process-terminating path in a method on the error type. Evaluated at the
concrete error `InvalidEvent(Locked, PersonEntering)`, the call diverges
instead of returning a string. -/
theorem description_diverges_on_error_value :
    (MachineError.InvalidEvent TurnstileState.Locked
      TurnstileEvent.PersonEntering).description = none :=
  rfl

/-- C10: formatting `InvalidEvent(s, e)` through the `Display` impl yields
exactly `"Invalid Event, "` ++ the event's rendering ++ `" for State "` ++ the
state's rendering — the rejected event before the rejecting state. -/
theorem display_renders_event_before_state {S E : Type}
    (ds : S → String) (de : E → String) (s : S) (e : E) :
    MachineError.displayFmt ds de (MachineError.InvalidEvent s e)
      = "Invalid Event, " ++ de e ++ " for State " ++ ds s :=
  rfl
